import Mathlib

/-!
Shallow embedding of the geometric pose-classification engine of the
SpeakEase repository (`analysis_video_pipeline/src/custom_nodes/dabble/movement.py`).

The integer pixel coordinates of the Python code are modelled by `ℤ`, the
relative coordinates and confidence scores (Python floats compared against the
literal `0.6`) by `ℚ`, and the trigonometric computations (`math.sqrt`,
`math.acos`, `math.pi`) by exact real arithmetic over `ℝ`.  Python's `round`
(round-half-to-even) is modelled exactly by `pyRound`.  Boolean-valued Python
methods whose bodies compare real-valued quantities are modelled as `Prop`s.
-/

namespace SpeakEase

/-- Type-hinting alias for coordinates: `Coord = Tuple[int, int]`. -/
abbrev Coord := ℤ × ℤ

/-- Default output for encountered errors (`Node.ERROR_OUTPUT`): `-1`. -/
def ERROR_OUTPUT : ℤ := -1

/-- Confidence threshold for PoseNet keypoint detection (`Node._THRESHOLD = 0.6`). -/
def THRESHOLD : ℚ := 6 / 10

/-- Python's built-in `round` on a rational value: round half to even. -/
def pyRound (q : ℚ) : ℤ :=
  if q - ⌊q⌋ < 1 / 2 then ⌊q⌋
  else if (1 / 2 : ℚ) < q - ⌊q⌋ then ⌊q⌋ + 1
  else if ⌊q⌋ % 2 = 0 then ⌊q⌋ else ⌊q⌋ + 1

/-- State of the custom `Node`: the displayed image, if defined, abstracted to
its pixel dimensions `(height, width)` (i.e. `self._img.shape[0]` and
`self._img.shape[1]`). -/
structure NodeState where
  img : Option (ℕ × ℕ)

/-- Height of the displayed image (`Node.height`); `ERROR_OUTPUT` if the image
is undefined. -/
def height (s : NodeState) : ℤ :=
  match s.img with
  | none => ERROR_OUTPUT
  | some hw => (hw.1 : ℤ)

/-- Width of the displayed image (`Node.width`); `ERROR_OUTPUT` if the image
is undefined. -/
def width (s : NodeState) : ℤ :=
  match s.img with
  | none => ERROR_OUTPUT
  | some hw => (hw.2 : ℤ)

/-- Maps relative coordinates onto the displayed image
(`Node._map_coord_onto_img`). -/
def map_coord_onto_img (s : NodeState) (x y : ℚ) : Coord :=
  if width s = ERROR_OUTPUT ∨ height s = ERROR_OUTPUT then (ERROR_OUTPUT, ERROR_OUTPUT)
  else (pyRound (x * (width s : ℚ)), pyRound (y * (height s : ℚ)))

/-- Obtains a detected PoseNet keypoint if its confidence score meets or
exceeds the threshold (`Node._obtain_keypoint`). -/
def obtain_keypoint (s : NodeState) (keypoint : ℚ × ℚ) (score : ℚ) : Option Coord :=
  if score < THRESHOLD then none else some (map_coord_onto_img s keypoint.1 keypoint.2)

/-- The local variable `cos_value` of `Node.angle_between_vectors_in_rad`:
`dot_prod / (v1_magnitude * v2_magnitude)`. -/
noncomputable def cos_value (x1 y1 x2 y2 : ℤ) : ℝ :=
  ((x1 : ℝ) * x2 + (y1 : ℝ) * y2) /
    (Real.sqrt ((x1 : ℝ) * x1 + (y1 : ℝ) * y1) * Real.sqrt ((x2 : ℝ) * x2 + (y2 : ℝ) * y2))

/-- Obtains the (smaller) angle between two non-zero vectors in radians
(`Node.angle_between_vectors_in_rad`).  Returns `ERROR_OUTPUT` if either
vector is the zero vector, or if the cosine value falls outside the `acos`
domain `[-1, 1]`. -/
noncomputable def angle_between_vectors_in_rad (x1 y1 x2 y2 : ℤ) : ℝ :=
  if (x1 = 0 ∧ y1 = 0) ∨ (x2 = 0 ∧ y2 = 0) then (ERROR_OUTPUT : ℝ)
  else if |cos_value x1 y1 x2 y2| > 1 then (ERROR_OUTPUT : ℝ)
  else Real.arccos (cos_value x1 y1 x2 y2)

/-- Euclidean distance between two integer coordinates, as computed by the
`sqrt((ax - bx)*(ax - bx) + (ay - by)*(ay - by))` pattern of the code. -/
noncomputable def euclidean_distance (a b : Coord) : ℝ :=
  Real.sqrt (((a.1 - b.1) * (a.1 - b.1) + (a.2 - b.2) * (a.2 - b.2) : ℤ) : ℝ)

/-- Determines if the arms of the given pose are folded (`Node.are_arms_folded`).
Returns `False` when any required keypoint is undefined, or when either
computed elbow angle equals `ERROR_OUTPUT`; otherwise both arms must satisfy
the four fold conditions of the code. -/
def are_arms_folded (left_shoulder left_elbow left_wrist
    right_shoulder right_elbow right_wrist : Option Coord) : Prop :=
  match left_shoulder, left_elbow, left_wrist, right_shoulder, right_elbow, right_wrist with
  | some (left_shoulder_x, left_shoulder_y), some (left_elbow_x, left_elbow_y),
    some (left_wrist_x, left_wrist_y), some (right_shoulder_x, right_shoulder_y),
    some (right_elbow_x, right_elbow_y), some (right_wrist_x, right_wrist_y) =>
      angle_between_vectors_in_rad (left_shoulder_x - left_elbow_x)
          (left_shoulder_y - left_elbow_y) (left_wrist_x - left_elbow_x)
          (left_wrist_y - left_elbow_y) ≠ (ERROR_OUTPUT : ℝ) ∧
      angle_between_vectors_in_rad (right_shoulder_x - right_elbow_x)
          (right_shoulder_y - right_elbow_y) (right_wrist_x - right_elbow_x)
          (right_wrist_y - right_elbow_y) ≠ (ERROR_OUTPUT : ℝ) ∧
      (angle_between_vectors_in_rad (left_shoulder_x - left_elbow_x)
          (left_shoulder_y - left_elbow_y) (left_wrist_x - left_elbow_x)
          (left_wrist_y - left_elbow_y) < 2 * Real.pi / 3 ∧
        right_shoulder_x ≤ left_wrist_x ∧ left_wrist_x ≤ left_shoulder_x ∧
        min left_shoulder_y right_shoulder_y < left_wrist_y ∧
        euclidean_distance (right_shoulder_x, right_shoulder_y)
            (left_shoulder_x, left_shoulder_y) ≤
          euclidean_distance (left_wrist_x, left_wrist_y) (left_elbow_x, left_elbow_y) * 2) ∧
      (angle_between_vectors_in_rad (right_shoulder_x - right_elbow_x)
          (right_shoulder_y - right_elbow_y) (right_wrist_x - right_elbow_x)
          (right_wrist_y - right_elbow_y) < 2 * Real.pi / 3 ∧
        right_shoulder_x ≤ right_wrist_x ∧ right_wrist_x ≤ left_shoulder_x ∧
        min left_shoulder_y right_shoulder_y < right_wrist_y ∧
        euclidean_distance (right_shoulder_x, right_shoulder_y)
            (left_shoulder_x, left_shoulder_y) ≤
          euclidean_distance (right_wrist_x, right_wrist_y) (right_elbow_x, right_elbow_y) * 2)
  | _, _, _, _, _, _ => False

/-- Determines if the hands of the given pose are touching the face
(`Node.is_face_touched`): some defined limb coordinate lies within Euclidean
distance `100` of some defined facial coordinate. -/
def is_face_touched (left_elbow right_elbow left_wrist right_wrist
    nose left_eye right_eye left_ear right_ear : Option Coord) : Prop :=
  ∃ limb_coordinate ∈ List.filterMap id [left_elbow, right_elbow, left_wrist, right_wrist],
    ∃ face_coordinate ∈ List.filterMap id [nose, left_eye, right_eye, left_ear, right_ear],
      euclidean_distance limb_coordinate face_coordinate < 100

/-- Determines if the given pose is leaning towards one side (`Node.is_leaning`).
Returns `False` when any required keypoint is undefined; otherwise compares the
two shoulder-hip-hip angles against a `15`-degree sway tolerance around `π/2`.
Note: the code performs no `ERROR_OUTPUT` check on the computed angles. -/
def is_leaning (left_shoulder right_shoulder left_hip right_hip : Option Coord) : Prop :=
  match left_shoulder, right_shoulder, left_hip, right_hip with
  | some (left_shoulder_x, left_shoulder_y), some (right_shoulder_x, right_shoulder_y),
    some (left_hip_x, left_hip_y), some (right_hip_x, right_hip_y) =>
      angle_between_vectors_in_rad (left_shoulder_x - left_hip_x)
          (left_shoulder_y - left_hip_y) (right_hip_x - left_hip_x)
          (right_hip_y - left_hip_y) < Real.pi / 2 - 15 * Real.pi / 180 ∨
      angle_between_vectors_in_rad (right_shoulder_x - right_hip_x)
          (right_shoulder_y - right_hip_y) (left_hip_x - right_hip_x)
          (left_hip_y - right_hip_y) < Real.pi / 2 - 15 * Real.pi / 180 ∨
      angle_between_vectors_in_rad (left_shoulder_x - left_hip_x)
          (left_shoulder_y - left_hip_y) (right_hip_x - left_hip_x)
          (right_hip_y - left_hip_y) > Real.pi / 2 + 15 * Real.pi / 180 ∨
      angle_between_vectors_in_rad (right_shoulder_x - right_hip_x)
          (right_shoulder_y - right_hip_y) (left_hip_x - right_hip_x)
          (left_hip_y - right_hip_y) > Real.pi / 2 + 15 * Real.pi / 180
  | _, _, _, _ => False

/-! ### Basic facts about the angle primitive -/

lemma normSq_pos_of_ne_zero {x y : ℤ} (h : ¬(x = 0 ∧ y = 0)) :
    0 < (x : ℝ) * x + (y : ℝ) * y := by
  rcases not_and_or.mp h with hx | hy
  · have hx' : (x : ℝ) ≠ 0 := Int.cast_ne_zero.mpr hx
    have := mul_self_pos.mpr hx'
    nlinarith [mul_self_nonneg (y : ℝ)]
  · have hy' : (y : ℝ) ≠ 0 := Int.cast_ne_zero.mpr hy
    have := mul_self_pos.mpr hy'
    nlinarith [mul_self_nonneg (x : ℝ)]

lemma abs_cos_value_le_one {x1 y1 x2 y2 : ℤ}
    (h1 : ¬(x1 = 0 ∧ y1 = 0)) (h2 : ¬(x2 = 0 ∧ y2 = 0)) :
    |cos_value x1 y1 x2 y2| ≤ 1 := by
  have ha : 0 < (x1 : ℝ) * x1 + (y1 : ℝ) * y1 := normSq_pos_of_ne_zero h1
  have hb : 0 < (x2 : ℝ) * x2 + (y2 : ℝ) * y2 := normSq_pos_of_ne_zero h2
  have hsa : 0 < Real.sqrt ((x1 : ℝ) * x1 + (y1 : ℝ) * y1) := Real.sqrt_pos.mpr ha
  have hsb : 0 < Real.sqrt ((x2 : ℝ) * x2 + (y2 : ℝ) * y2) := Real.sqrt_pos.mpr hb
  have hd : 0 < Real.sqrt ((x1 : ℝ) * x1 + (y1 : ℝ) * y1) *
      Real.sqrt ((x2 : ℝ) * x2 + (y2 : ℝ) * y2) := mul_pos hsa hsb
  have hcs : ((x1 : ℝ) * x2 + (y1 : ℝ) * y2) ^ 2 ≤
      ((x1 : ℝ) * x1 + (y1 : ℝ) * y1) * ((x2 : ℝ) * x2 + (y2 : ℝ) * y2) := by
    nlinarith [sq_nonneg ((x1 : ℝ) * y2 - (x2 : ℝ) * y1)]
  have hnum : |(x1 : ℝ) * x2 + (y1 : ℝ) * y2| ≤
      Real.sqrt ((x1 : ℝ) * x1 + (y1 : ℝ) * y1) * Real.sqrt ((x2 : ℝ) * x2 + (y2 : ℝ) * y2) := by
    have h1' : Real.sqrt (((x1 : ℝ) * x2 + (y1 : ℝ) * y2) ^ 2) ≤
        Real.sqrt (((x1 : ℝ) * x1 + (y1 : ℝ) * y1) * ((x2 : ℝ) * x2 + (y2 : ℝ) * y2)) :=
      Real.sqrt_le_sqrt hcs
    rwa [Real.sqrt_sq_eq_abs, Real.sqrt_mul ha.le] at h1'
  rw [cos_value, abs_div, abs_of_pos hd]
  exact div_le_one_of_le₀ hnum hd.le

lemma angle_eq_arccos {x1 y1 x2 y2 : ℤ}
    (h1 : ¬(x1 = 0 ∧ y1 = 0)) (h2 : ¬(x2 = 0 ∧ y2 = 0)) :
    angle_between_vectors_in_rad x1 y1 x2 y2 = Real.arccos (cos_value x1 y1 x2 y2) := by
  rw [angle_between_vectors_in_rad, if_neg (by tauto),
    if_neg (not_lt.mpr (abs_cos_value_le_one h1 h2))]

lemma angle_nonneg {x1 y1 x2 y2 : ℤ}
    (h1 : ¬(x1 = 0 ∧ y1 = 0)) (h2 : ¬(x2 = 0 ∧ y2 = 0)) :
    0 ≤ angle_between_vectors_in_rad x1 y1 x2 y2 := by
  rw [angle_eq_arccos h1 h2]; exact Real.arccos_nonneg _

lemma angle_le_pi {x1 y1 x2 y2 : ℤ}
    (h1 : ¬(x1 = 0 ∧ y1 = 0)) (h2 : ¬(x2 = 0 ∧ y2 = 0)) :
    angle_between_vectors_in_rad x1 y1 x2 y2 ≤ Real.pi := by
  rw [angle_eq_arccos h1 h2]; exact Real.arccos_le_pi _

lemma angle_ne_error {x1 y1 x2 y2 : ℤ}
    (h1 : ¬(x1 = 0 ∧ y1 = 0)) (h2 : ¬(x2 = 0 ∧ y2 = 0)) :
    angle_between_vectors_in_rad x1 y1 x2 y2 ≠ (ERROR_OUTPUT : ℝ) := by
  have h := angle_nonneg h1 h2
  intro hc
  rw [hc] at h
  norm_num [ERROR_OUTPUT] at h

lemma angle_error_of_zero {x1 y1 x2 y2 : ℤ}
    (h : (x1 = 0 ∧ y1 = 0) ∨ (x2 = 0 ∧ y2 = 0)) :
    angle_between_vectors_in_rad x1 y1 x2 y2 = (ERROR_OUTPUT : ℝ) := by
  rw [angle_between_vectors_in_rad, if_pos h]

lemma angle_le_pi_div_two_of_dot_nonneg {x1 y1 x2 y2 : ℤ}
    (h1 : ¬(x1 = 0 ∧ y1 = 0)) (h2 : ¬(x2 = 0 ∧ y2 = 0))
    (hdot : 0 ≤ (x1 : ℝ) * x2 + (y1 : ℝ) * y2) :
    angle_between_vectors_in_rad x1 y1 x2 y2 ≤ Real.pi / 2 := by
  rw [angle_eq_arccos h1 h2]
  exact Real.arccos_le_pi_div_two.mpr
    (div_nonneg hdot (mul_nonneg (Real.sqrt_nonneg _) (Real.sqrt_nonneg _)))

/-- Unfolding lemma: `are_arms_folded` on six defined keypoints. -/
lemma are_arms_folded_some_iff
    (lsx lsy lex ley lwx lwy rsx rsy rex rey rwx rwy : ℤ) :
    are_arms_folded (some (lsx, lsy)) (some (lex, ley)) (some (lwx, lwy))
      (some (rsx, rsy)) (some (rex, rey)) (some (rwx, rwy)) ↔
      (angle_between_vectors_in_rad (lsx - lex) (lsy - ley) (lwx - lex) (lwy - ley) ≠
          (ERROR_OUTPUT : ℝ) ∧
       angle_between_vectors_in_rad (rsx - rex) (rsy - rey) (rwx - rex) (rwy - rey) ≠
          (ERROR_OUTPUT : ℝ) ∧
       (angle_between_vectors_in_rad (lsx - lex) (lsy - ley) (lwx - lex) (lwy - ley) <
            2 * Real.pi / 3 ∧
        rsx ≤ lwx ∧ lwx ≤ lsx ∧
        min lsy rsy < lwy ∧
        euclidean_distance (rsx, rsy) (lsx, lsy) ≤
          euclidean_distance (lwx, lwy) (lex, ley) * 2) ∧
       (angle_between_vectors_in_rad (rsx - rex) (rsy - rey) (rwx - rex) (rwy - rey) <
            2 * Real.pi / 3 ∧
        rsx ≤ rwx ∧ rwx ≤ lsx ∧
        min lsy rsy < rwy ∧
        euclidean_distance (rsx, rsy) (lsx, lsy) ≤
          euclidean_distance (rwx, rwy) (rex, rey) * 2)) :=
  Iff.rfl

/-- Unfolding lemma: `is_leaning` on four defined keypoints. -/
lemma is_leaning_some_iff (lsx lsy rsx rsy lhx lhy rhx rhy : ℤ) :
    is_leaning (some (lsx, lsy)) (some (rsx, rsy)) (some (lhx, lhy)) (some (rhx, rhy)) ↔
      (angle_between_vectors_in_rad (lsx - lhx) (lsy - lhy) (rhx - lhx) (rhy - lhy) <
          Real.pi / 2 - 15 * Real.pi / 180 ∨
       angle_between_vectors_in_rad (rsx - rhx) (rsy - rhy) (lhx - rhx) (lhy - rhy) <
          Real.pi / 2 - 15 * Real.pi / 180 ∨
       angle_between_vectors_in_rad (lsx - lhx) (lsy - lhy) (rhx - lhx) (rhy - lhy) >
          Real.pi / 2 + 15 * Real.pi / 180 ∨
       angle_between_vectors_in_rad (rsx - rhx) (rsy - rhy) (lhx - rhx) (lhy - rhy) >
          Real.pi / 2 + 15 * Real.pi / 180) :=
  Iff.rfl

/-! ### Claim theorems -/

/-- C3: if at least one of the two argument vectors is the zero vector, then
`angle_between_vectors_in_rad` returns the error sentinel `ERROR_OUTPUT`
(the undefined-angle outcome), regardless of the other argument. -/
theorem claim_C3_zero_vector_signals_error (x1 y1 x2 y2 : ℤ)
    (h : (x1 = 0 ∧ y1 = 0) ∨ (x2 = 0 ∧ y2 = 0)) :
    angle_between_vectors_in_rad x1 y1 x2 y2 = (ERROR_OUTPUT : ℝ) :=
  angle_error_of_zero h

/-- Witness for C3: both the first and the second argument vector being zero
produce the error sentinel, at the concrete vectors `(0,0)` and `(3,4)`. -/
theorem claim_C3_zero_vector_signals_error_witness :
    angle_between_vectors_in_rad 0 0 3 4 = (ERROR_OUTPUT : ℝ) ∧
    angle_between_vectors_in_rad 3 4 0 0 = (ERROR_OUTPUT : ℝ) :=
  ⟨claim_C3_zero_vector_signals_error 0 0 3 4 (Or.inl ⟨rfl, rfl⟩),
   claim_C3_zero_vector_signals_error 3 4 0 0 (Or.inr ⟨rfl, rfl⟩)⟩

/-- C4: `angle_between_vectors_in_rad` is commutative in its two argument
vectors, for all inputs including zero vectors. -/
theorem claim_C4_angle_commutative (x1 y1 x2 y2 : ℤ) :
    angle_between_vectors_in_rad x1 y1 x2 y2 = angle_between_vectors_in_rad x2 y2 x1 y1 := by
  have hc : cos_value x2 y2 x1 y1 = cos_value x1 y1 x2 y2 := by
    unfold cos_value
    rw [mul_comm (Real.sqrt ((x2 : ℝ) * x2 + (y2 : ℝ) * y2))
      (Real.sqrt ((x1 : ℝ) * x1 + (y1 : ℝ) * y1))]
    ring_nf
  unfold angle_between_vectors_in_rad
  rw [hc]
  by_cases h : (x1 = 0 ∧ y1 = 0) ∨ (x2 = 0 ∧ y2 = 0)
  · rw [if_pos h, if_pos h.symm]
  · rw [if_neg h,
      if_neg (show ¬((x2 = 0 ∧ y2 = 0) ∨ (x1 = 0 ∧ y1 = 0)) from fun hh => h hh.symm)]

/-- C10: every output of `angle_between_vectors_in_rad` is either the error
sentinel `-1` or a value in `[0, π]`, and a value in `[0, π]` is never the
sentinel, so callers can always distinguish the two outcomes. -/
theorem claim_C10_angle_range (x1 y1 x2 y2 : ℤ) :
    angle_between_vectors_in_rad x1 y1 x2 y2 = (ERROR_OUTPUT : ℝ) ∨
      (0 ≤ angle_between_vectors_in_rad x1 y1 x2 y2 ∧
       angle_between_vectors_in_rad x1 y1 x2 y2 ≤ Real.pi ∧
       angle_between_vectors_in_rad x1 y1 x2 y2 ≠ (ERROR_OUTPUT : ℝ)) := by
  by_cases h : (x1 = 0 ∧ y1 = 0) ∨ (x2 = 0 ∧ y2 = 0)
  · exact Or.inl (angle_error_of_zero h)
  · have h1 : ¬(x1 = 0 ∧ y1 = 0) := fun hh => h (Or.inl hh)
    have h2 : ¬(x2 = 0 ∧ y2 = 0) := fun hh => h (Or.inr hh)
    exact Or.inr ⟨angle_nonneg h1 h2, angle_le_pi h1 h2, angle_ne_error h1 h2⟩

/-- C2: with defined frame dimensions, `obtain_keypoint` maps a relative
coordinate `(rx, ry)` in `[0,1] × [0,1]` to `some (round (rx * width),
round (ry * height))` when the confidence score is at least `0.6`, and to
`none` when the score is below `0.6`. -/
theorem claim_C2_obtain_keypoint (ht wd : ℕ) (rx ry score : ℚ)
    (_hx0 : 0 ≤ rx) (_hx1 : rx ≤ 1) (_hy0 : 0 ≤ ry) (_hy1 : ry ≤ 1) :
    ((6 / 10 : ℚ) ≤ score →
      obtain_keypoint ⟨some (ht, wd)⟩ (rx, ry) score =
        some (pyRound (rx * (wd : ℚ)), pyRound (ry * (ht : ℚ)))) ∧
    (score < (6 / 10 : ℚ) →
      obtain_keypoint ⟨some (ht, wd)⟩ (rx, ry) score = none) := by
  have hw : width ⟨some (ht, wd)⟩ = (wd : ℤ) := rfl
  have hh : height ⟨some (ht, wd)⟩ = (ht : ℤ) := rfl
  have hnerr : ¬(width ⟨some (ht, wd)⟩ = ERROR_OUTPUT ∨
      height ⟨some (ht, wd)⟩ = ERROR_OUTPUT) := by
    rw [hw, hh, ERROR_OUTPUT]
    rintro (hc | hc) <;> omega
  constructor
  · intro hs
    rw [obtain_keypoint, if_neg (not_lt.mpr (by simpa [THRESHOLD] using hs)),
      map_coord_onto_img, if_neg hnerr, hw, hh]
    norm_num
  · intro hs
    rw [obtain_keypoint, if_pos (by simpa [THRESHOLD] using hs)]

/-- Witness for C2: a concrete keypoint at relative position `(1/2, 1/4)` with
score `3/4 ≥ 0.6` on a `100 × 50` frame resolves to the rounded pixel
coordinate. -/
theorem claim_C2_obtain_keypoint_witness :
    obtain_keypoint ⟨some (50, 100)⟩ (1 / 2, 1 / 4) (3 / 4) =
      some (pyRound ((1 / 2 : ℚ) * (100 : ℕ)), pyRound ((1 / 4 : ℚ) * (50 : ℕ))) :=
  (claim_C2_obtain_keypoint 50 100 (1 / 2) (1 / 4) (3 / 4)
    (by norm_num) (by norm_num) (by norm_num) (by norm_num)).1 (by norm_num)

/-- C6: `are_arms_folded` returns `False` whenever at least one of its six
joints is undefined, and `is_leaning` returns `False` whenever at least one of
its four joints is undefined (hence for every non-empty subset of missing
joints). -/
theorem claim_C6_missing_joint_false :
    (∀ a b c d e f : Option Coord,
      a = none ∨ b = none ∨ c = none ∨ d = none ∨ e = none ∨ f = none →
      ¬ are_arms_folded a b c d e f) ∧
    (∀ a b c d : Option Coord,
      a = none ∨ b = none ∨ c = none ∨ d = none →
      ¬ is_leaning a b c d) := by
  constructor
  · rintro a b c d e f h hf
    rcases a with _ | a <;> rcases b with _ | b <;> rcases c with _ | c <;>
      rcases d with _ | d <;> rcases e with _ | e <;> rcases f with _ | f <;>
      first
        | exact hf
        | simp at h
  · rintro a b c d h hf
    rcases a with _ | a <;> rcases b with _ | b <;> rcases c with _ | c <;>
      rcases d with _ | d <;>
      first
        | exact hf
        | simp at h

/-- Witness for C6: concrete instance with the first joint undefined for each
classifier. -/
theorem claim_C6_missing_joint_false_witness :
    ¬ are_arms_folded none (some (1, 1)) (some (2, 2)) (some (3, 3))
        (some (4, 4)) (some (5, 5)) ∧
    ¬ is_leaning none (some (1, 1)) (some (2, 2)) (some (3, 3)) :=
  ⟨claim_C6_missing_joint_false.1 none (some (1, 1)) (some (2, 2)) (some (3, 3))
      (some (4, 4)) (some (5, 5)) (Or.inl rfl),
   claim_C6_missing_joint_false.2 none (some (1, 1)) (some (2, 2)) (some (3, 3))
      (Or.inl rfl)⟩

/-- C1 (divergence witness): with all four lean joints defined and the two hips
equal, the hip-to-hip vector is zero, so the angle primitive returns the error
sentinel `-1`; `is_leaning` then compares `-1` against the lean thresholds and
returns `True`, not the conservative `False` the specification requires. -/
theorem claim_C1_is_leaning_true_on_degenerate_hips :
    angle_between_vectors_in_rad (0 - 2) (0 - 3) (2 - 2) (3 - 3) = (ERROR_OUTPUT : ℝ) ∧
    is_leaning (some (0, 0)) (some (4, 0)) (some (2, 3)) (some (2, 3)) := by
  have herr : angle_between_vectors_in_rad (0 - 2) (0 - 3) (2 - 2) (3 - 3) =
      (ERROR_OUTPUT : ℝ) := angle_error_of_zero (Or.inr (by norm_num))
  refine ⟨herr, ?_⟩
  rw [is_leaning_some_iff]
  left
  rw [herr, ERROR_OUTPUT]
  push_cast
  linarith [Real.pi_pos]

/-- C5: with all six arm joints defined and both elbow angles defined (not the
error sentinel), `are_arms_folded` holds iff, for each arm independently, the
elbow angle is below `2π/3`, the wrist x-coordinate lies between the right and
left shoulder x-coordinates (inclusive), the wrist y-coordinate is strictly
greater than the minimum of the two shoulder y-coordinates, and twice the
elbow-to-wrist distance is at least the shoulder-to-shoulder distance. -/
theorem claim_C5_are_arms_folded_iff
    (lsx lsy lex ley lwx lwy rsx rsy rex rey rwx rwy : ℤ)
    (hl : angle_between_vectors_in_rad (lsx - lex) (lsy - ley) (lwx - lex) (lwy - ley) ≠
      (ERROR_OUTPUT : ℝ))
    (hr : angle_between_vectors_in_rad (rsx - rex) (rsy - rey) (rwx - rex) (rwy - rey) ≠
      (ERROR_OUTPUT : ℝ)) :
    (are_arms_folded (some (lsx, lsy)) (some (lex, ley)) (some (lwx, lwy))
        (some (rsx, rsy)) (some (rex, rey)) (some (rwx, rwy)) ↔
      ((angle_between_vectors_in_rad (lsx - lex) (lsy - ley) (lwx - lex) (lwy - ley) <
            2 * Real.pi / 3 ∧
        rsx ≤ lwx ∧ lwx ≤ lsx ∧
        min lsy rsy < lwy ∧
        euclidean_distance (rsx, rsy) (lsx, lsy) ≤
          euclidean_distance (lwx, lwy) (lex, ley) * 2) ∧
       (angle_between_vectors_in_rad (rsx - rex) (rsy - rey) (rwx - rex) (rwy - rey) <
            2 * Real.pi / 3 ∧
        rsx ≤ rwx ∧ rwx ≤ lsx ∧
        min lsy rsy < rwy ∧
        euclidean_distance (rsx, rsy) (lsx, lsy) ≤
          euclidean_distance (rwx, rwy) (rex, rey) * 2))) := by
  rw [are_arms_folded_some_iff]
  tauto

/-- Witness for C5: concrete joints with both elbow angles defined; the
equivalence of the claim holds there. -/
theorem claim_C5_are_arms_folded_iff_witness :
    (angle_between_vectors_in_rad (2 - 1) (0 - 0) (0 - 1) (0 - 0) ≠ (ERROR_OUTPUT : ℝ)) ∧
    (angle_between_vectors_in_rad (5 - 6) (5 - 6) (7 - 6) (7 - 6) ≠ (ERROR_OUTPUT : ℝ)) ∧
    (are_arms_folded (some (2, 0)) (some (1, 0)) (some (0, 0))
        (some (5, 5)) (some (6, 6)) (some (7, 7)) ↔
      ((angle_between_vectors_in_rad (2 - 1) (0 - 0) (0 - 1) (0 - 0) < 2 * Real.pi / 3 ∧
        (5 : ℤ) ≤ 0 ∧ (0 : ℤ) ≤ 2 ∧
        min (0 : ℤ) 5 < 0 ∧
        euclidean_distance ((5 : ℤ), (5 : ℤ)) (2, 0) ≤
          euclidean_distance ((0 : ℤ), (0 : ℤ)) (1, 0) * 2) ∧
       (angle_between_vectors_in_rad (5 - 6) (5 - 6) (7 - 6) (7 - 6) < 2 * Real.pi / 3 ∧
        (5 : ℤ) ≤ 7 ∧ (7 : ℤ) ≤ 2 ∧
        min (0 : ℤ) 5 < 7 ∧
        euclidean_distance ((5 : ℤ), (5 : ℤ)) (2, 0) ≤
          euclidean_distance ((7 : ℤ), (7 : ℤ)) (6, 6) * 2))) :=
  ⟨angle_ne_error (by decide) (by decide), angle_ne_error (by decide) (by decide),
   claim_C5_are_arms_folded_iff 2 0 1 0 0 0 5 5 6 6 7 7
     (angle_ne_error (by decide) (by decide)) (angle_ne_error (by decide) (by decide))⟩

/-- C8: with all four lean joints defined and both computed shoulder-hip-hip
angles defined (not the error sentinel), `is_leaning` holds iff at least one
of the two angles deviates from `π/2` by more than the `15`-degree tolerance
in either direction. -/
theorem claim_C8_is_leaning_iff (lsx lsy rsx rsy lhx lhy rhx rhy : ℤ)
    (_hl : angle_between_vectors_in_rad (lsx - lhx) (lsy - lhy) (rhx - lhx) (rhy - lhy) ≠
      (ERROR_OUTPUT : ℝ))
    (_hr : angle_between_vectors_in_rad (rsx - rhx) (rsy - rhy) (lhx - rhx) (lhy - rhy) ≠
      (ERROR_OUTPUT : ℝ)) :
    (is_leaning (some (lsx, lsy)) (some (rsx, rsy)) (some (lhx, lhy)) (some (rhx, rhy)) ↔
      ((angle_between_vectors_in_rad (lsx - lhx) (lsy - lhy) (rhx - lhx) (rhy - lhy) <
          Real.pi / 2 - 15 * Real.pi / 180 ∨
        angle_between_vectors_in_rad (lsx - lhx) (lsy - lhy) (rhx - lhx) (rhy - lhy) >
          Real.pi / 2 + 15 * Real.pi / 180) ∨
       (angle_between_vectors_in_rad (rsx - rhx) (rsy - rhy) (lhx - rhx) (lhy - rhy) <
          Real.pi / 2 - 15 * Real.pi / 180 ∨
        angle_between_vectors_in_rad (rsx - rhx) (rsy - rhy) (lhx - rhx) (lhy - rhy) >
          Real.pi / 2 + 15 * Real.pi / 180))) := by
  rw [is_leaning_some_iff]
  tauto

/-- Witness for C8: concrete upright pose with both angles defined; the
equivalence of the claim holds there. -/
theorem claim_C8_is_leaning_iff_witness :
    (angle_between_vectors_in_rad (0 - 0) (0 - 2) (4 - 0) (2 - 2) ≠ (ERROR_OUTPUT : ℝ)) ∧
    (angle_between_vectors_in_rad (4 - 4) (0 - 2) (0 - 4) (2 - 2) ≠ (ERROR_OUTPUT : ℝ)) ∧
    (is_leaning (some (0, 0)) (some (4, 0)) (some (0, 2)) (some (4, 2)) ↔
      ((angle_between_vectors_in_rad (0 - 0) (0 - 2) (4 - 0) (2 - 2) <
          Real.pi / 2 - 15 * Real.pi / 180 ∨
        angle_between_vectors_in_rad (0 - 0) (0 - 2) (4 - 0) (2 - 2) >
          Real.pi / 2 + 15 * Real.pi / 180) ∨
       (angle_between_vectors_in_rad (4 - 4) (0 - 2) (0 - 4) (2 - 2) <
          Real.pi / 2 - 15 * Real.pi / 180 ∨
        angle_between_vectors_in_rad (4 - 4) (0 - 2) (0 - 4) (2 - 2) >
          Real.pi / 2 + 15 * Real.pi / 180))) :=
  ⟨angle_ne_error (by decide) (by decide), angle_ne_error (by decide) (by decide),
   claim_C8_is_leaning_iff 0 0 4 0 0 2 4 2
     (angle_ne_error (by decide) (by decide)) (angle_ne_error (by decide) (by decide))⟩

/-- C9: on the literal coordinate fixture of the spec, `are_arms_folded`
returns `true`. -/
theorem claim_C9_fixture_returns_true :
    are_arms_folded (some (1153, 239)) (some (1184, 437)) (some (1067, 425))
      (some (919, 235)) (some (864, 425)) (some (1054, 425)) := by
  rw [are_arms_folded_some_iff]
  have hln : ¬((1153 - 1184 : ℤ) = 0 ∧ (239 - 437 : ℤ) = 0) := by decide
  have hln' : ¬((1067 - 1184 : ℤ) = 0 ∧ (425 - 437 : ℤ) = 0) := by decide
  have hrn : ¬((919 - 864 : ℤ) = 0 ∧ (235 - 425 : ℤ) = 0) := by decide
  have hrn' : ¬((1054 - 864 : ℤ) = 0 ∧ (425 - 425 : ℤ) = 0) := by decide
  have hpi : Real.pi / 2 < 2 * Real.pi / 3 := by linarith [Real.pi_pos]
  have hL : angle_between_vectors_in_rad (1153 - 1184) (239 - 437) (1067 - 1184)
      (425 - 437) ≤ Real.pi / 2 :=
    angle_le_pi_div_two_of_dot_nonneg hln hln' (by push_cast; norm_num)
  have hR : angle_between_vectors_in_rad (919 - 864) (235 - 425) (1054 - 864)
      (425 - 425) ≤ Real.pi / 2 :=
    angle_le_pi_div_two_of_dot_nonneg hrn hrn' (by push_cast; norm_num)
  have hshoulder : euclidean_distance ((919 : ℤ), (235 : ℤ)) (1153, 239) =
      Real.sqrt 54772 := by
    unfold euclidean_distance
    norm_num
  have hldist : euclidean_distance ((1067 : ℤ), (425 : ℤ)) (1184, 437) =
      Real.sqrt 13833 := by
    unfold euclidean_distance
    norm_num
  have hrdist : euclidean_distance ((1054 : ℤ), (425 : ℤ)) (864, 425) =
      Real.sqrt 36100 := by
    unfold euclidean_distance
    norm_num
  have h1 : Real.sqrt 54772 ≤ Real.sqrt 13833 * 2 := by
    have e4 : Real.sqrt 4 = 2 := by
      rw [show (4 : ℝ) = 2 ^ 2 by norm_num, Real.sqrt_sq (by norm_num : (0 : ℝ) ≤ 2)]
    calc Real.sqrt 54772 ≤ Real.sqrt 55332 := Real.sqrt_le_sqrt (by norm_num)
      _ = Real.sqrt (13833 * 4) := by norm_num
      _ = Real.sqrt 13833 * Real.sqrt 4 := Real.sqrt_mul (by norm_num) 4
      _ = Real.sqrt 13833 * 2 := by rw [e4]
  have h2 : Real.sqrt 54772 ≤ Real.sqrt 36100 * 2 := by
    have e190 : Real.sqrt 36100 = 190 := by
      rw [show (36100 : ℝ) = 190 ^ 2 by norm_num, Real.sqrt_sq (by norm_num : (0 : ℝ) ≤ 190)]
    have e380 : Real.sqrt 144400 = 380 := by
      rw [show (144400 : ℝ) = 380 ^ 2 by norm_num, Real.sqrt_sq (by norm_num : (0 : ℝ) ≤ 380)]
    have hle : Real.sqrt 54772 ≤ Real.sqrt 144400 := Real.sqrt_le_sqrt (by norm_num)
    rw [e190]
    linarith
  refine ⟨angle_ne_error hln hln', angle_ne_error hrn hrn',
    ⟨lt_of_le_of_lt hL hpi, by decide, by decide, by decide, ?_⟩,
    ⟨lt_of_le_of_lt hR hpi, by decide, by decide, by decide, ?_⟩⟩
  · rw [hshoulder, hldist]; exact h1
  · rw [hshoulder, hrdist]; exact h2

/-- C7: `is_face_touched` holds iff some defined limb coordinate and some
defined face coordinate lie at Euclidean distance strictly below `100`; in
particular it fails when all limb coordinates or all face coordinates are
undefined. -/
theorem claim_C7_is_face_touched_iff (p1 p2 p3 p4 q1 q2 q3 q4 q5 : Option Coord) :
    is_face_touched p1 p2 p3 p4 q1 q2 q3 q4 q5 ↔
      ∃ lc fc : Coord,
        (p1 = some lc ∨ p2 = some lc ∨ p3 = some lc ∨ p4 = some lc) ∧
        (q1 = some fc ∨ q2 = some fc ∨ q3 = some fc ∨ q4 = some fc ∨ q5 = some fc) ∧
        euclidean_distance lc fc < 100 := by
  unfold is_face_touched
  constructor
  · rintro ⟨lc, hlc, fc, hfc, hd⟩
    obtain ⟨ol, hol, holeq⟩ := List.mem_filterMap.mp hlc
    obtain ⟨og, hog, hogeq⟩ := List.mem_filterMap.mp hfc
    simp only [id_eq] at holeq hogeq
    subst holeq
    subst hogeq
    refine ⟨lc, fc, ?_, ?_, hd⟩
    · simp only [List.mem_cons, List.not_mem_nil, or_false] at hol
      rcases hol with h | h | h | h
      · exact Or.inl h.symm
      · exact Or.inr (Or.inl h.symm)
      · exact Or.inr (Or.inr (Or.inl h.symm))
      · exact Or.inr (Or.inr (Or.inr h.symm))
    · simp only [List.mem_cons, List.not_mem_nil, or_false] at hog
      rcases hog with h | h | h | h | h
      · exact Or.inl h.symm
      · exact Or.inr (Or.inl h.symm)
      · exact Or.inr (Or.inr (Or.inl h.symm))
      · exact Or.inr (Or.inr (Or.inr (Or.inl h.symm)))
      · exact Or.inr (Or.inr (Or.inr (Or.inr h.symm)))
  · rintro ⟨lc, fc, hl, hf, hd⟩
    refine ⟨lc, List.mem_filterMap.mpr ⟨some lc, ?_, rfl⟩,
      fc, List.mem_filterMap.mpr ⟨some fc, ?_, rfl⟩, hd⟩
    · rcases hl with h | h | h | h <;> simp [h]
    · rcases hf with h | h | h | h | h <;> simp [h]

end SpeakEase
